import Mathlib

/-!
Shallow embedding of the email-OTP server (`src/unnamed/part_000`, a single
Express application).  The two in-memory `Map`s (`otpStore`, `tokenStore`) are
modelled as association lists with JavaScript `Map` semantics (`get`, `set`
overwriting, `delete`); the `users.json` file is modelled as a `FileState`
that can be absent, readable with contents, or unreadable (any I/O throw).
Clock reads (`Date.now()`), random draws (`Math.random`, `crypto.randomBytes`)
and I/O success (`sendMail`, `writeJson`) are passed to each handler as
explicit parameters.  Times are in milliseconds, as in the source.
-/

namespace EmailOtp

/-- `otpStore` entry: `{ otp, expiresAt, attempts }` (line 96 of the source). -/
structure OtpChallenge where
  otp : String
  expiresAt : Nat
  attempts : Nat
deriving DecidableEq

/-- `tokenStore` entry: `{ email, expiresAt }` (line 145 of the source). -/
structure TokenData where
  email : String
  expiresAt : Nat
deriving DecidableEq

/-- A registered user: `{ id, name, email, createdAt }` (line 164). -/
structure User where
  id : String
  name : String
  email : String
  createdAt : Nat
deriving DecidableEq

/-- State of the `users.json` file: missing, readable JSON array, or any
condition that makes `fs.pathExists`/`fs.readJson` throw. -/
inductive FileState where
  | absent : FileState
  | content : List User → FileState
  | unreadable : FileState
deriving DecidableEq

/-- The whole mutable state of the server process. -/
structure ServerState where
  otpStore : List (String × OtpChallenge)
  tokenStore : List (String × TokenData)
  file : FileState
deriving DecidableEq

/-- A JSON HTTP response; only the fields the server ever writes.  The
`/exists` route's `exists` field is called `userExists` because `exists`
clashes with Lean vocabulary. -/
structure Response where
  status : Nat
  ok : Bool
  error : Option String := none
  message : Option String := none
  token : Option String := none
  user : Option User := none
  userExists : Option Bool := none
deriving DecidableEq

/-- JavaScript falsiness of an optional string body field: `!x` is true
for `undefined` and for the empty string. -/
def falsy : Option String → Bool
  | none => true
  | some s => s == ""

/-- JavaScript `toLowerCase()` as the handlers use it on email strings:
lower-case every character (the source only ever feeds it ASCII emails). -/
def toLowerStr (s : String) : String := ⟨s.data.map Char.toLower⟩

/-- `Map.prototype.get`. -/
def mapGet {α : Type} : List (String × α) → String → Option α
  | [], _ => none
  | (k, v) :: rest, key => if k = key then some v else mapGet rest key

/-- `Map.prototype.set` (overwrites an existing key, else appends). -/
def mapSet {α : Type} : List (String × α) → String → α → List (String × α)
  | [], key, v => [(key, v)]
  | (k, w) :: rest, key, v =>
      if k = key then (key, v) :: rest else (k, w) :: mapSet rest key v

/-- `Map.prototype.delete`.  A JavaScript `Map` never holds a duplicate key,
so removing every pair with the key agrees with it on all reachable states. -/
def mapDel {α : Type} (m : List (String × α)) (key : String) : List (String × α) :=
  m.filter (fun p => p.1 ≠ key)

/-- `readUsers` (source lines 24–36): create the file with `[]` when absent,
return its contents when readable, and swallow any error returning `[]`.
Returns the list of users together with the file state after the call. -/
def readUsers : FileState → List User × FileState
  | .absent => ([], .content [])
  | .content us => (us, .content us)
  | .unreadable => ([], .unreadable)

/-- `writeUsers` (lines 38–46): returns `true` and replaces the file on
success, returns `false` leaving the file as it was when `fs.writeJson`
throws.  `writeOk` is the environment's I/O-success oracle. -/
def writeUsers (writeOk : Bool) (us : List User) (f : FileState) : Bool × FileState :=
  if writeOk then (true, .content us) else (false, f)

/-- `generateOTP` (lines 48–52): concatenates `len` random decimal digits;
the draws `Math.floor(Math.random() * 10)` (each in `0..9`) are the
`digits` argument. -/
def generateOTP (digits : List Nat) : String :=
  ⟨digits.map (fun d => Char.ofNat (48 + d))⟩

/-- Lower-case hexadecimal digit for `n < 16`. -/
def hexDigitChar (n : Nat) : Char :=
  if n < 10 then Char.ofNat (48 + n) else Char.ofNat (87 + n)

/-- Two lower-case hex characters of one byte, as `Buffer.toString` emits. -/
def byteToHex (b : Nat) : List Char :=
  [hexDigitChar (b / 16), hexDigitChar (b % 16)]

/-- `generateToken` (lines 54–56): `crypto.randomBytes(20).toString` in hex;
the twenty random bytes are the `bytes` argument. -/
def generateToken (bytes : List Nat) : String :=
  ⟨(bytes.map byteToHex).flatten⟩

/-- Result of `POST /send-otp`: the response, the state after the call, and
whether `transporter.sendMail` was invoked at all. -/
structure SendOtpResult where
  resp : Response
  state : ServerState
  mailAttempted : Bool
deriving DecidableEq

/-- `POST /send-otp` (lines 81–118).  `otpTtl` is `OTP_EXPIRES_SECONDS`
(default 300), `now` is `Date.now()`, `newOtp` the freshly generated code,
`mailOk` whether `sendMail` succeeds. -/
def sendOtp (otpTtl now : Nat) (newOtp : String) (mailOk : Bool)
    (s : ServerState) (email : Option String) : SendOtpResult :=
  if falsy email then
    ⟨{ status := 400, ok := false, error := some "Email required" }, s, false⟩
  else
    let e := email.getD ""
    let rateLimited : Bool :=
      match mapGet s.otpStore e with
      | some existing =>
          if existing.expiresAt > now then
            decide ((((existing.expiresAt - now + 999) / 1000 : Nat) : Int) >
              (otpTtl : Int) - 250)
          else false
      | none => false
    if rateLimited then
      ⟨{ status := 429, ok := false, error := some "Try again later" }, s, false⟩
    else
      let s2 : ServerState :=
        { s with otpStore := mapSet s.otpStore e ⟨newOtp, now + otpTtl * 1000, 0⟩ }
      if mailOk then
        ⟨{ status := 200, ok := true, message := some "OTP sent" }, s2, true⟩
      else
        ⟨{ status := 500, ok := false, error := some "Failed to send email" }, s2, true⟩

/-- `POST /verify-otp` (lines 121–149).  `tokenTtl` is
`TOKEN_EXPIRES_SECONDS` (default 900), `newToken` the freshly generated
session token. -/
def verifyOtp (tokenTtl now : Nat) (newToken : String)
    (s : ServerState) (email otp : Option String) : Response × ServerState :=
  if falsy email || falsy otp then
    ({ status := 400, ok := false, error := some "Email and OTP required" }, s)
  else
    let e := email.getD ""
    match mapGet s.otpStore e with
    | none =>
        ({ status := 400, ok := false, error := some "No OTP requested or already used" }, s)
    | some data =>
        if now > data.expiresAt then
          ({ status := 400, ok := false, error := some "OTP expired" },
           { s with otpStore := mapDel s.otpStore e })
        else
          let attempts := data.attempts + 1
          if attempts > 6 then
            ({ status := 429, ok := false, error := some "Too many attempts" },
             { s with otpStore := mapDel s.otpStore e })
          else if otp.getD "" ≠ data.otp then
            ({ status := 400, ok := false, error := some "Invalid OTP" },
             { s with otpStore := mapSet s.otpStore e { data with attempts := attempts } })
          else
            ({ status := 200, ok := true, message := some "Verified", token := some newToken },
             { s with
                 otpStore := mapDel s.otpStore e,
                 tokenStore := mapSet s.tokenStore newToken ⟨e, now + tokenTtl * 1000⟩ })

/-- `POST /register` (lines 152–173).  `newId` is `crypto.randomBytes(8)` in
hex, `writeOk` whether persisting `users.json` succeeds. -/
def register (now : Nat) (newId : String) (writeOk : Bool)
    (s : ServerState) (name email token : Option String) : Response × ServerState :=
  if falsy name || falsy email || falsy token then
    ({ status := 400, ok := false, error := some "Name, email and token required" }, s)
  else
    match mapGet s.tokenStore (token.getD "") with
    | none =>
        ({ status := 400, ok := false, error := some "Invalid or expired token" }, s)
    | some mapping =>
        if mapping.email ≠ email.getD "" then
          ({ status := 400, ok := false, error := some "Invalid or expired token" }, s)
        else
          let users := (readUsers s.file).1
          let f1 := (readUsers s.file).2
          if users.any (fun u => toLowerStr u.email == toLowerStr (email.getD "")) then
            ({ status := 400, ok := false, error := some "User already exists" },
             { s with file := f1 })
          else
            let user : User := ⟨newId, name.getD "", email.getD "", now⟩
            let wr := writeUsers writeOk (users ++ [user]) f1
            if wr.1 then
              ({ status := 200, ok := true, message := some "Registered", user := some user },
               { s with file := wr.2, tokenStore := mapDel s.tokenStore (token.getD "") })
            else
              ({ status := 500, ok := false, error := some "Failed to save user" },
               { s with file := wr.2 })

/-- `POST /exists` (lines 176–182). -/
def existsHandler (s : ServerState) (email : Option String) : Response × ServerState :=
  if falsy email then
    ({ status := 400, ok := false, error := some "Email required" }, s)
  else
    let users := (readUsers s.file).1
    let ex := users.any (fun u => toLowerStr u.email == toLowerStr (email.getD ""))
    ({ status := 200, ok := true, userExists := some ex },
     { s with file := (readUsers s.file).2 })

/-- `GET /me` (lines 185–196).  The token is taken from the `x-auth-token`
header when truthy, else from the query string. -/
def me (s : ServerState) (headerToken queryToken : Option String) :
    Response × ServerState :=
  let token := if falsy headerToken then queryToken else headerToken
  if falsy token then
    ({ status := 401, ok := false, error := some "Token required" }, s)
  else
    match mapGet s.tokenStore (token.getD "") with
    | none =>
        ({ status := 401, ok := false, error := some "Invalid or expired token" }, s)
    | some mapping =>
        let users := (readUsers s.file).1
        match users.find? (fun u => toLowerStr u.email == toLowerStr mapping.email) with
        | none =>
            ({ status := 404, ok := false, error := some "User not found" },
             { s with file := (readUsers s.file).2 })
        | some user =>
            ({ status := 200, ok := true, user := some user },
             { s with file := (readUsers s.file).2 })

/-- The cleanup interval (lines 70–78): removes every store entry whose
`expiresAt` is at or before `now`. -/
def janitorSweep (now : Nat) (s : ServerState) : ServerState :=
  { s with
      otpStore := s.otpStore.filter (fun p => decide (now < p.2.expiresAt)),
      tokenStore := s.tokenStore.filter (fun p => decide (now < p.2.expiresAt)) }

/-! ### Lemmas about the map operations -/

theorem mapGet_set_self {α : Type} (m : List (String × α)) (k : String) (v : α) :
    mapGet (mapSet m k v) k = some v := by
  induction m with
  | nil => simp [mapSet, mapGet]
  | cons p rest ih =>
      by_cases h : p.1 = k
      · simp [mapSet, mapGet, h]
      · simp only [mapSet, h, if_false, mapGet, ite_false]
        simpa [mapGet, h] using ih

theorem mapGet_set_ne {α : Type} (m : List (String × α)) (k k' : String) (v : α)
    (h : k' ≠ k) : mapGet (mapSet m k v) k' = mapGet m k' := by
  have h' : k ≠ k' := Ne.symm h
  induction m with
  | nil => simp [mapSet, mapGet, h']
  | cons p rest ih =>
      by_cases hp : p.1 = k
      · subst hp
        simp [mapSet, mapGet, h']
      · simp only [mapSet, hp, if_false]
        by_cases hp' : p.1 = k'
        · simp [mapGet, hp']
        · simp [mapGet, hp', ih]

theorem mapGet_del_self {α : Type} (m : List (String × α)) (k : String) :
    mapGet (mapDel m k) k = none := by
  induction m with
  | nil => simp [mapDel, mapGet]
  | cons p rest ih =>
      by_cases h : p.1 = k
      · simpa [mapDel, h] using ih
      · simpa [mapDel, mapGet, h] using ih

theorem mapGet_del_ne {α : Type} (m : List (String × α)) (k k' : String)
    (h : k' ≠ k) : mapGet (mapDel m k) k' = mapGet m k' := by
  induction m with
  | nil => simp [mapDel, mapGet]
  | cons p rest ih =>
      by_cases hp : p.1 = k
      · subst hp
        have : p.1 ≠ k' := fun hk => h hk.symm
        simpa [mapDel, mapGet, this] using ih
      · by_cases hp' : p.1 = k'
        · simp [mapDel, List.filter_cons, hp, mapGet, hp', h]
        · simpa [mapDel, List.filter_cons, hp, mapGet, hp'] using ih

theorem mapGet_filter_some {α : Type} (m : List (String × α)) (p : String × α → Bool)
    (k : String) (v : α) (h : mapGet (m.filter p) k = some v) : p (k, v) = true := by
  induction m with
  | nil => simp [mapGet] at h
  | cons q rest ih =>
      by_cases hq : p q = true
      · rw [List.filter_cons_of_pos hq] at h
        by_cases hk : q.1 = k
        · rw [mapGet, if_pos hk] at h
          cases h
          rwa [← hk, Prod.mk.eta]
        · rw [mapGet, if_neg hk] at h
          exact ih h
      · rw [List.filter_cons_of_neg hq] at h
        exact ih h

/-! ### Helper definitions and lemmas -/

/-- The user directory has no two users with the same email, compared
case-insensitively. -/
def emailsUniqueCI (us : List User) : Prop :=
  us.Pairwise (fun u v => toLowerStr u.email ≠ toLowerStr v.email)

/-- A character is a lower-case hexadecimal digit. -/
def isHexChar (c : Char) : Prop :=
  (Char.ofNat 48 ≤ c ∧ c ≤ Char.ofNat 57) ∨ (Char.ofNat 97 ≤ c ∧ c ≤ Char.ofNat 102)

instance (c : Char) : Decidable (isHexChar c) := by
  unfold isHexChar
  infer_instance

theorem readUsers_idem (f : FileState) :
    (readUsers (readUsers f).2).1 = (readUsers f).1 := by
  cases f <;> rfl

theorem hexDigitChar_isHex (n : Nat) (h : n < 16) : isHexChar (hexDigitChar n) := by
  have : ∀ m : Nat, m < 16 → isHexChar (hexDigitChar m) := by decide
  exact this n h

theorem generateToken_length (bytes : List Nat) :
    (generateToken bytes).length = 2 * bytes.length := by
  induction bytes with
  | nil => rfl
  | cons b bs ih =>
      simp only [generateToken, String.length, List.map_cons, List.flatten_cons,
        List.length_append, List.length_cons] at ih ⊢
      simp only [byteToHex, List.length_cons, List.length_nil]
      omega

theorem generateToken_hex (bytes : List Nat) (hb : ∀ b ∈ bytes, b < 256) :
    ∀ c ∈ (generateToken bytes).data, isHexChar c := by
  intro c hc
  simp only [generateToken] at hc
  rw [List.mem_flatten] at hc
  obtain ⟨l, hl, hcl⟩ := hc
  rw [List.mem_map] at hl
  obtain ⟨b, hbmem, rfl⟩ := hl
  have hb256 := hb b hbmem
  have h1 : b / 16 < 16 := Nat.div_lt_of_lt_mul (by omega)
  have h2 : b % 16 < 16 := Nat.mod_lt _ (by omega)
  simp only [byteToHex, List.mem_cons, List.mem_singleton, List.not_mem_nil,
    or_false] at hcl
  rcases hcl with rfl | rfl
  · exact hexDigitChar_isHex _ h1
  · exact hexDigitChar_isHex _ h2

/-- Shared core of the `/send-otp` rate-limit claim: a live challenge whose
remaining lifetime (in milliseconds) strictly exceeds
`(OTP_EXPIRES_SECONDS - 250)` seconds makes the handler return 429 without
touching the store or the mailer. -/
theorem sendOtp_rate_limited (otpTtl now : Nat) (newOtp : String) (mailOk : Bool)
    (s : ServerState) (email : Option String) (data : OtpChallenge)
    (he : falsy email = false)
    (hd : mapGet s.otpStore (email.getD "") = some data)
    (hlive : now < data.expiresAt)
    (hrem : (data.expiresAt : Int) - (now : Int) > ((otpTtl : Int) - 250) * 1000) :
    sendOtp otpTtl now newOtp mailOk s email =
      ⟨{ status := 429, ok := false, error := some "Try again later" }, s, false⟩ := by
  simp [sendOtp, he, hd, hlive]
  intro hle
  exfalso
  omega

/-- Iterate `/verify-otp` with the same request `k` times, threading the
state. -/
def verifyIter (tokenTtl now : Nat) (newToken : String)
    (email otp : Option String) : Nat → ServerState → ServerState
  | 0, s => s
  | n + 1, s =>
      verifyIter tokenTtl now newToken email otp n
        (verifyOtp tokenTtl now newToken s email otp).2

/-- One wrong guess against a live challenge whose incremented counter stays
at or below 6: the handler keeps the challenge, bumping `attempts`. -/
theorem verifyOtp_wrong_step (tokenTtl now : Nat) (newToken : String)
    (email otp : Option String) (he : falsy email = false) (ho : falsy otp = false)
    (c : String) (exp a : Nat) (hexp : ¬ now > exp) (hwrong : otp.getD "" ≠ c)
    (s : ServerState)
    (hs : mapGet s.otpStore (email.getD "") = some ⟨c, exp, a⟩)
    (h6 : ¬ (a + 1 > 6)) :
    (verifyOtp tokenTtl now newToken s email otp).2 =
      { s with otpStore := mapSet s.otpStore (email.getD "") ⟨c, exp, a + 1⟩ } := by
  simp [verifyOtp, he, ho, hs, hexp, h6, hwrong]

/-- After `k` wrong guesses against a live challenge, the challenge is still
stored and its attempt counter has grown by `k`, as long as the counter does
not pass 6. -/
theorem verifyIter_wrong (tokenTtl now : Nat) (newToken : String)
    (email otp : Option String) (he : falsy email = false) (ho : falsy otp = false)
    (c : String) (exp : Nat) (hexp : ¬ now > exp) (hwrong : otp.getD "" ≠ c) :
    ∀ (k a : Nat) (s : ServerState),
      mapGet s.otpStore (email.getD "") = some ⟨c, exp, a⟩ →
      a + k ≤ 6 →
      mapGet (verifyIter tokenTtl now newToken email otp k s).otpStore
        (email.getD "") = some ⟨c, exp, a + k⟩ := by
  intro k
  induction k with
  | zero =>
      intro a s hs _
      simpa [verifyIter] using hs
  | succ n ih =>
      intro a s hs hle
      have h6 : ¬ (a + 1 > 6) := by omega
      have hstep := verifyOtp_wrong_step tokenTtl now newToken email otp he ho
        c exp a hexp hwrong s hs h6
      rw [verifyIter, hstep]
      have hrec := ih (a + 1)
        { s with otpStore := mapSet s.otpStore (email.getD "") ⟨c, exp, a + 1⟩ }
        (mapGet_set_self _ _ _) (by omega)
      have hn : a + (n + 1) = (a + 1) + n := by omega
      rw [hn]
      exact hrec

/-! ### Claim theorems -/

/-- C4: when the stored challenge for the email is expired (`now >
expiresAt`), `/verify-otp` deletes the challenge and answers 400 "OTP
expired" — for any submitted code and any attempts count — and the token
store is untouched, so no session token is minted. -/
theorem C4_verify_expired (tokenTtl now : Nat) (newToken : String)
    (s : ServerState) (email otp : Option String)
    (he : falsy email = false) (ho : falsy otp = false)
    (data : OtpChallenge)
    (hd : mapGet s.otpStore (email.getD "") = some data)
    (hexp : now > data.expiresAt) :
    (verifyOtp tokenTtl now newToken s email otp).1 =
      { status := 400, ok := false, error := some "OTP expired" } ∧
    mapGet (verifyOtp tokenTtl now newToken s email otp).2.otpStore
      (email.getD "") = none ∧
    (verifyOtp tokenTtl now newToken s email otp).2.tokenStore = s.tokenStore := by
  refine ⟨?_, ?_, ?_⟩ <;> simp [verifyOtp, he, ho, hd, hexp, mapGet_del_self]

/-- Concrete run of `C4_verify_expired`: TTL 300s challenge created at 0,
verified with the correct code at 400s. -/
theorem C4_witness :
    (verifyOtp 900000 400000 "tok"
        (⟨[("a@x.com", ⟨"123456", 300000, 0⟩)], [], .content []⟩ : ServerState)
        (some "a@x.com") (some "123456")).1 =
      { status := 400, ok := false, error := some "OTP expired" } ∧
    mapGet (verifyOtp 900000 400000 "tok"
        (⟨[("a@x.com", ⟨"123456", 300000, 0⟩)], [], .content []⟩ : ServerState)
        (some "a@x.com") (some "123456")).2.otpStore "a@x.com" = none ∧
    (verifyOtp 900000 400000 "tok"
        (⟨[("a@x.com", ⟨"123456", 300000, 0⟩)], [], .content []⟩ : ServerState)
        (some "a@x.com") (some "123456")).2.tokenStore =
      (⟨[("a@x.com", ⟨"123456", 300000, 0⟩)], [], .content []⟩ : ServerState).tokenStore :=
  C4_verify_expired 900000 400000 "tok" _ (some "a@x.com") (some "123456")
    rfl rfl ⟨"123456", 300000, 0⟩ (by decide) (by decide)

/-- C5: `/send-otp` is rate limited.  First part: with a stored unexpired
challenge whose remaining lifetime in milliseconds exceeds
`(OTP_EXPIRES_SECONDS - 250)` seconds, the call answers 429, leaves the
state unchanged and never reaches the mailer.  Second part: with the
default TTL of 300s, a second `/send-otp` within `300 - 250 = 50` seconds
of a first successful issue is rejected with 429. -/
theorem C5_send_otp_rate_limit :
    (∀ (otpTtl now : Nat) (newOtp : String) (mailOk : Bool) (s : ServerState)
        (email : Option String) (data : OtpChallenge),
      falsy email = false →
      mapGet s.otpStore (email.getD "") = some data →
      now < data.expiresAt →
      (data.expiresAt : Int) - (now : Int) > ((otpTtl : Int) - 250) * 1000 →
      sendOtp otpTtl now newOtp mailOk s email =
        ⟨{ status := 429, ok := false, error := some "Try again later" }, s, false⟩) ∧
    (∀ (t0 t1 : Nat) (otp1 otp2 : String) (mailOk1 mailOk2 : Bool)
        (s : ServerState) (email : Option String),
      falsy email = false →
      mapGet s.otpStore (email.getD "") = none →
      t0 ≤ t1 → t1 ≤ t0 + 50000 →
      (sendOtp 300 t1 otp2 mailOk2
          (sendOtp 300 t0 otp1 mailOk1 s email).state email).resp =
        { status := 429, ok := false, error := some "Try again later" }) := by
  constructor
  · intro otpTtl now newOtp mailOk s email data he hd hlive hrem
    exact sendOtp_rate_limited otpTtl now newOtp mailOk s email data he hd hlive hrem
  · intro t0 t1 otp1 otp2 mailOk1 mailOk2 s email he hnone ht0 ht1
    have hs1 : (sendOtp 300 t0 otp1 mailOk1 s email).state =
        { s with otpStore :=
            mapSet s.otpStore (email.getD "") ⟨otp1, t0 + 300 * 1000, 0⟩ } := by
      cases mailOk1 <;> simp [sendOtp, he, hnone]
    have hget : mapGet (sendOtp 300 t0 otp1 mailOk1 s email).state.otpStore
        (email.getD "") = some ⟨otp1, t0 + 300 * 1000, 0⟩ := by
      rw [hs1]
      exact mapGet_set_self _ _ _
    have hlive2 : t1 < (⟨otp1, t0 + 300 * 1000, 0⟩ : OtpChallenge).expiresAt := by
      show t1 < t0 + 300 * 1000
      omega
    have hrem2 : ((⟨otp1, t0 + 300 * 1000, 0⟩ : OtpChallenge).expiresAt : Int) -
        (t1 : Int) > (((300 : Nat) : Int) - 250) * 1000 := by
      show ((t0 + 300 * 1000 : Nat) : Int) - (t1 : Int) > (((300 : Nat) : Int) - 250) * 1000
      push_cast
      omega
    have h429 := sendOtp_rate_limited 300 t1 otp2 mailOk2
      (sendOtp 300 t0 otp1 mailOk1 s email).state email ⟨otp1, t0 + 300 * 1000, 0⟩
      he hget hlive2 hrem2
    rw [h429]

/-- Concrete run of `C5_send_otp_rate_limit`: OTP issued at 0s, re-requested
at 50s with default TTL 300s is answered 429 with nothing changed. -/
theorem C5_witness :
    sendOtp 300 50000 "222222" true
        (⟨[("a@x.com", ⟨"111111", 300000, 0⟩)], [], .content []⟩ : ServerState)
        (some "a@x.com") =
      ⟨{ status := 429, ok := false, error := some "Try again later" },
       (⟨[("a@x.com", ⟨"111111", 300000, 0⟩)], [], .content []⟩ : ServerState), false⟩ :=
  C5_send_otp_rate_limit.1 300 50000 "222222" true _ (some "a@x.com")
    ⟨"111111", 300000, 0⟩ rfl (by decide) (by decide) (by decide)

/-- C6: `/verify-otp` with a live challenge, a post-increment attempts count
of at most 6 and a matching code deletes the challenge, stores a token-store
entry under the freshly generated token carrying the request email and the
expiry `now + TOKEN_EXPIRES_SECONDS * 1000`, and returns the token; the
token generated from 20 random bytes is a 40-character lower-case hex
string. -/
theorem C6_verify_success (tokenTtl now : Nat) (bytes : List Nat)
    (s : ServerState) (email otp : Option String)
    (he : falsy email = false) (ho : falsy otp = false)
    (data : OtpChallenge)
    (hd : mapGet s.otpStore (email.getD "") = some data)
    (hlive : ¬ now > data.expiresAt)
    (hatt : data.attempts + 1 ≤ 6)
    (hmatch : otp.getD "" = data.otp)
    (hlen : bytes.length = 20)
    (hb : ∀ b ∈ bytes, b < 256) :
    (verifyOtp tokenTtl now (generateToken bytes) s email otp).1 =
      { status := 200, ok := true, message := some "Verified",
        token := some (generateToken bytes) } ∧
    mapGet (verifyOtp tokenTtl now (generateToken bytes) s email otp).2.otpStore
      (email.getD "") = none ∧
    mapGet (verifyOtp tokenTtl now (generateToken bytes) s email otp).2.tokenStore
      (generateToken bytes) = some ⟨email.getD "", now + tokenTtl * 1000⟩ ∧
    (generateToken bytes).length = 40 ∧
    (∀ c ∈ (generateToken bytes).data, isHexChar c) := by
  have h6 : ¬ (data.attempts + 1 > 6) := by omega
  have hne : ¬ (otp.getD "" ≠ data.otp) := fun hx => hx hmatch
  refine ⟨?_, ?_, ?_, ?_, generateToken_hex bytes hb⟩
  · simp [verifyOtp, he, ho, hd, hlive, h6, hne]
  · simp [verifyOtp, he, ho, hd, hlive, h6, hne, mapGet_del_self]
  · simp [verifyOtp, he, ho, hd, hlive, h6, hne, mapGet_set_self]
  · rw [generateToken_length, hlen]

/-- Concrete run of `C6_verify_success`: correct code on the first attempt
mints the hex token of the 20 bytes `0,1,...,19` with expiry `100 + 900000`. -/
theorem C6_witness :
    (verifyOtp 900000 100 (generateToken (List.range 20))
        (⟨[("a@x.com", ⟨"123456", 300000, 0⟩)], [], .content []⟩ : ServerState)
        (some "a@x.com") (some "123456")).1 =
      { status := 200, ok := true, message := some "Verified",
        token := some (generateToken (List.range 20)) } ∧
    mapGet (verifyOtp 900000 100 (generateToken (List.range 20))
        (⟨[("a@x.com", ⟨"123456", 300000, 0⟩)], [], .content []⟩ : ServerState)
        (some "a@x.com") (some "123456")).2.otpStore "a@x.com" = none ∧
    mapGet (verifyOtp 900000 100 (generateToken (List.range 20))
        (⟨[("a@x.com", ⟨"123456", 300000, 0⟩)], [], .content []⟩ : ServerState)
        (some "a@x.com") (some "123456")).2.tokenStore (generateToken (List.range 20)) =
      some ⟨"a@x.com", 100 + 900000 * 1000⟩ ∧
    (generateToken (List.range 20)).length = 40 ∧
    (∀ c ∈ (generateToken (List.range 20)).data, isHexChar c) :=
  C6_verify_success 900000 100 (List.range 20) _ (some "a@x.com") (some "123456")
    rfl rfl ⟨"123456", 300000, 0⟩ (by decide) (by decide) (by decide) (by decide)
    (by decide) (by decide)

/-- C3: attempt limiting in `/verify-otp`.  First part: a wrong code against
a live challenge whose incremented counter stays at or below 6 answers 400
"Invalid OTP" and re-stores the challenge with `attempts` incremented — the
counter moves before the code comparison.  Second part: once the increment
pushes the counter past 6 the challenge is deleted and the call answers 429,
for any submitted code.  Third part: starting from a fresh challenge
(`attempts = 0`), six wrong verifications leave the counter at 6, the
seventh answers 429 deleting the challenge, and an eighth answers the
no-challenge error. -/
theorem C3_attempt_limit :
    (∀ (tokenTtl now : Nat) (newToken : String) (s : ServerState)
        (email otp : Option String) (data : OtpChallenge),
      falsy email = false → falsy otp = false →
      mapGet s.otpStore (email.getD "") = some data →
      ¬ now > data.expiresAt →
      data.attempts + 1 ≤ 6 →
      otp.getD "" ≠ data.otp →
      (verifyOtp tokenTtl now newToken s email otp).1 =
        { status := 400, ok := false, error := some "Invalid OTP" } ∧
      mapGet (verifyOtp tokenTtl now newToken s email otp).2.otpStore
        (email.getD "") = some { data with attempts := data.attempts + 1 }) ∧
    (∀ (tokenTtl now : Nat) (newToken : String) (s : ServerState)
        (email otp : Option String) (data : OtpChallenge),
      falsy email = false → falsy otp = false →
      mapGet s.otpStore (email.getD "") = some data →
      ¬ now > data.expiresAt →
      data.attempts + 1 > 6 →
      (verifyOtp tokenTtl now newToken s email otp).1 =
        { status := 429, ok := false, error := some "Too many attempts" } ∧
      mapGet (verifyOtp tokenTtl now newToken s email otp).2.otpStore
        (email.getD "") = none) ∧
    (∀ (tokenTtl now : Nat) (newToken : String) (s : ServerState)
        (email otp : Option String) (c : String) (e : Nat),
      falsy email = false → falsy otp = false →
      mapGet s.otpStore (email.getD "") = some ⟨c, e, 0⟩ →
      ¬ now > e →
      otp.getD "" ≠ c →
      mapGet (verifyIter tokenTtl now newToken email otp 6 s).otpStore
        (email.getD "") = some ⟨c, e, 6⟩ ∧
      (verifyOtp tokenTtl now newToken
          (verifyIter tokenTtl now newToken email otp 6 s) email otp).1 =
        { status := 429, ok := false, error := some "Too many attempts" } ∧
      mapGet (verifyOtp tokenTtl now newToken
          (verifyIter tokenTtl now newToken email otp 6 s) email otp).2.otpStore
        (email.getD "") = none ∧
      (verifyOtp tokenTtl now newToken
          (verifyOtp tokenTtl now newToken
            (verifyIter tokenTtl now newToken email otp 6 s) email otp).2
          email otp).1 =
        { status := 400, ok := false,
          error := some "No OTP requested or already used" }) := by
  refine ⟨?_, ?_, ?_⟩
  · intro tokenTtl now newToken s email otp data he ho hd hlive hatt hwrong
    have h6 : ¬ (data.attempts + 1 > 6) := by omega
    constructor
    · simp [verifyOtp, he, ho, hd, hlive, h6, hwrong]
    · simp [verifyOtp, he, ho, hd, hlive, h6, hwrong, mapGet_set_self]
  · intro tokenTtl now newToken s email otp data he ho hd hlive hatt
    constructor
    · simp [verifyOtp, he, ho, hd, hlive, hatt]
    · simp [verifyOtp, he, ho, hd, hlive, hatt, mapGet_del_self]
  · intro tokenTtl now newToken s email otp c e he ho hd hlive hwrong
    have h6 := verifyIter_wrong tokenTtl now newToken email otp he ho c e hlive
      hwrong 6 0 s hd (by omega)
    have h6' : mapGet (verifyIter tokenTtl now newToken email otp 6 s).otpStore
        (email.getD "") = some ⟨c, e, 6⟩ := by simpa using h6
    have hdel : mapGet (verifyOtp tokenTtl now newToken
        (verifyIter tokenTtl now newToken email otp 6 s) email otp).2.otpStore
        (email.getD "") = none := by
      simp [verifyOtp, he, ho, h6', hlive, mapGet_del_self]
    refine ⟨h6', ?_, hdel, ?_⟩
    · simp [verifyOtp, he, ho, h6', hlive]
    · generalize hst : (verifyOtp tokenTtl now newToken
        (verifyIter tokenTtl now newToken email otp 6 s) email otp).2 = s7 at hdel ⊢
      simp [verifyOtp, he, ho, hdel]

/-- Concrete run of `C3_attempt_limit`: seven wrong guesses of a fresh
challenge — counter at 6 after six, 429 with the challenge deleted on the
seventh, no-challenge on the eighth. -/
theorem C3_witness :
    mapGet (verifyIter 900000 100 "tk" (some "a@x.com") (some "000000") 6
        (⟨[("a@x.com", ⟨"123456", 300000, 0⟩)], [], .content []⟩ : ServerState)).otpStore
      "a@x.com" = some ⟨"123456", 300000, 6⟩ ∧
    (verifyOtp 900000 100 "tk"
        (verifyIter 900000 100 "tk" (some "a@x.com") (some "000000") 6
          (⟨[("a@x.com", ⟨"123456", 300000, 0⟩)], [], .content []⟩ : ServerState))
        (some "a@x.com") (some "000000")).1 =
      { status := 429, ok := false, error := some "Too many attempts" } ∧
    mapGet (verifyOtp 900000 100 "tk"
        (verifyIter 900000 100 "tk" (some "a@x.com") (some "000000") 6
          (⟨[("a@x.com", ⟨"123456", 300000, 0⟩)], [], .content []⟩ : ServerState))
        (some "a@x.com") (some "000000")).2.otpStore "a@x.com" = none ∧
    (verifyOtp 900000 100 "tk"
        (verifyOtp 900000 100 "tk"
          (verifyIter 900000 100 "tk" (some "a@x.com") (some "000000") 6
            (⟨[("a@x.com", ⟨"123456", 300000, 0⟩)], [], .content []⟩ : ServerState))
          (some "a@x.com") (some "000000")).2
        (some "a@x.com") (some "000000")).1 =
      { status := 400, ok := false, error := some "No OTP requested or already used" } :=
  C3_attempt_limit.2.2 900000 100 "tk" _ (some "a@x.com") (some "000000")
    "123456" 300000 rfl rfl (by decide) (by decide) (by decide)

/-- Token store of the C1 counterexample: one token expired long before the
call. -/
def c1State : ServerState := ⟨[], [("t", ⟨"a@x.com", 0⟩)], .content []⟩

/-- C1 counterexample: a `/register` call at `now = 1000000` presenting a
token whose stored expiry `0` has long passed is NOT rejected with the
invalid-token error — registration succeeds, because the handler never
compares the token expiry to the clock. -/
theorem C1_counterexample :
    mapGet c1State.tokenStore "t" = some ⟨"a@x.com", 0⟩ ∧
    (0 : Nat) < 1000000 ∧
    (register 1000000 "id1" true c1State (some "Alice") (some "a@x.com")
        (some "t")).1.status = 200 ∧
    (register 1000000 "id1" true c1State (some "Alice") (some "a@x.com")
        (some "t")).1.error = none := by
  decide

/-- C1 (amended): `/register` rejects with 400 "Invalid or expired token",
changing nothing, exactly when the supplied token is absent from the token
store or its stored email differs (case-sensitively) from the supplied
email; a present, email-matching token passes the check regardless of its
expiry — expired entries disappear only through the janitor sweep, after
which any surviving token-store entry is unexpired. -/
theorem C1_register_token_validation :
    (∀ (now : Nat) (newId : String) (writeOk : Bool) (s : ServerState)
        (name email token : Option String),
      falsy name = false → falsy email = false → falsy token = false →
      (mapGet s.tokenStore (token.getD "") = none ∨
        (∃ m, mapGet s.tokenStore (token.getD "") = some m ∧
          m.email ≠ email.getD "")) →
      register now newId writeOk s name email token =
        ({ status := 400, ok := false, error := some "Invalid or expired token" }, s)) ∧
    (∀ (now : Nat) (newId : String) (writeOk : Bool) (s : ServerState)
        (name email token : Option String) (m : TokenData),
      falsy name = false → falsy email = false → falsy token = false →
      mapGet s.tokenStore (token.getD "") = some m →
      m.email = email.getD "" →
      (register now newId writeOk s name email token).1.error ≠
        some "Invalid or expired token") ∧
    (∀ (now : Nat) (s : ServerState) (t : String) (v : TokenData),
      mapGet (janitorSweep now s).tokenStore t = some v → now < v.expiresAt) := by
  refine ⟨?_, ?_, ?_⟩
  · intro now newId writeOk s name email token hn he ht hcase
    rcases hcase with habs | ⟨m, hm, hne⟩
    · simp [register, hn, he, ht, habs]
    · simp [register, hn, he, ht, hm, hne]
  · intro now newId writeOk s name email token m hn he ht hm hme
    simp only [register, hn, he, ht, Bool.or_self, Bool.or_false, if_false, hm,
      Bool.false_eq_true, ite_false]
    rw [if_neg (fun hx => hx hme)]
    split
    · simp
    · split <;> simp
  · intro now s t v h
    have h' : mapGet (s.tokenStore.filter
        (fun p => decide (now < p.2.expiresAt))) t = some v := h
    have := mapGet_filter_some _ _ _ _ h'
    exact of_decide_eq_true this

/-- Concrete run of `C1_register_token_validation`: with an empty token
store every well-formed `/register` is rejected with the invalid-token
error and the state is unchanged. -/
theorem C1_witness :
    register 5 "i" true (⟨[], [], .content []⟩ : ServerState) (some "A")
        (some "e@x") (some "tk") =
      ({ status := 400, ok := false, error := some "Invalid or expired token" },
       (⟨[], [], .content []⟩ : ServerState)) :=
  C1_register_token_validation.1 5 "i" true ⟨[], [], .content []⟩ (some "A")
    (some "e@x") (some "tk") rfl rfl rfl (Or.inl rfl)

/-- C2: a session token is single-use for registration.  Whenever a
`/register` using token `T` succeeds, `T` is gone from the token store of
the resulting state, and a well-formed second `/register` presenting `T`
against that state is rejected with 400 "Invalid or expired token", leaving
the state unchanged. -/
theorem C2_token_single_use (now now2 : Nat) (newId newId2 : String)
    (writeOk writeOk2 : Bool) (s : ServerState)
    (name email token name2 email2 : Option String)
    (hn2 : falsy name2 = false) (he2 : falsy email2 = false)
    (h : (register now newId writeOk s name email token).1.status = 200) :
    mapGet (register now newId writeOk s name email token).2.tokenStore
      (token.getD "") = none ∧
    register now2 newId2 writeOk2
        (register now newId writeOk s name email token).2 name2 email2 token =
      ({ status := 400, ok := false, error := some "Invalid or expired token" },
       (register now newId writeOk s name email token).2) := by
  by_cases hf : (falsy name || falsy email || falsy token) = true
  · simp [register, hf] at h
  · have hf' : (falsy name || falsy email || falsy token) = false := by
      simpa using hf
    simp only [Bool.or_eq_false_iff] at hf'
    obtain ⟨⟨hn, he⟩, ht⟩ := hf'
    rcases hmg : mapGet s.tokenStore (token.getD "") with _ | mapping
    · simp [register, hn, he, ht, hmg] at h
    · by_cases hme : mapping.email = email.getD ""
      · by_cases hdup : ((readUsers s.file).1.any
            (fun u => toLowerStr u.email == toLowerStr (email.getD ""))) = true
        · simp [register, hn, he, ht, hmg, hme, hdup] at h
        · rw [Bool.not_eq_true] at hdup
          cases writeOk with
          | false => simp [register, hn, he, ht, hmg, hme, hdup, writeUsers] at h
          | true =>
            have hreg : register now newId true s name email token =
                ({ status := 200, ok := true, message := some "Registered",
                   user := some ⟨newId, name.getD "", email.getD "", now⟩ },
                 { s with
                     file := .content ((readUsers s.file).1 ++
                       [⟨newId, name.getD "", email.getD "", now⟩]),
                     tokenStore := mapDel s.tokenStore (token.getD "") }) := by
              simp [register, hn, he, ht, hmg, hme, hdup, writeUsers]
            rw [hreg]
            refine ⟨mapGet_del_self _ _, ?_⟩
            simp [register, hn2, he2, ht, mapGet_del_self]
      · simp [register, hn, he, ht, hmg, hme] at h

/-- Concrete run of `C2_token_single_use`: a successful registration
consumes the token, and replaying it is rejected. -/
theorem C2_witness :
    mapGet (register 7 "id1" true
        (⟨[], [("t", ⟨"a@x.com", 999999⟩)], .content []⟩ : ServerState)
        (some "Alice") (some "a@x.com") (some "t")).2.tokenStore "t" = none ∧
    register 8 "id2" true
        (register 7 "id1" true
          (⟨[], [("t", ⟨"a@x.com", 999999⟩)], .content []⟩ : ServerState)
          (some "Alice") (some "a@x.com") (some "t")).2
        (some "Alice") (some "a@x.com") (some "t") =
      ({ status := 400, ok := false, error := some "Invalid or expired token" },
       (register 7 "id1" true
          (⟨[], [("t", ⟨"a@x.com", 999999⟩)], .content []⟩ : ServerState)
          (some "Alice") (some "a@x.com") (some "t")).2) :=
  C2_token_single_use 7 8 "id1" "id2" true true
    ⟨[], [("t", ⟨"a@x.com", 999999⟩)], .content []⟩
    (some "Alice") (some "a@x.com") (some "t") (some "Alice") (some "a@x.com")
    rfl rfl (by decide)

/-- C7: duplicate registration.  First part: with a valid matching token, if
some stored user has the supplied email up to case, `/register` answers 400
"User already exists" and neither the stored user list nor the token store
changes.  Second part: every `/register` call preserves the invariant that
no two stored users share an email case-insensitively. -/
theorem C7_duplicate_rejected :
    (∀ (now : Nat) (newId : String) (writeOk : Bool) (s : ServerState)
        (name email token : Option String) (mapping : TokenData),
      falsy name = false → falsy email = false → falsy token = false →
      mapGet s.tokenStore (token.getD "") = some mapping →
      mapping.email = email.getD "" →
      ((readUsers s.file).1.any
        (fun u => toLowerStr u.email == toLowerStr (email.getD ""))) = true →
      (register now newId writeOk s name email token).1 =
        { status := 400, ok := false, error := some "User already exists" } ∧
      (readUsers (register now newId writeOk s name email token).2.file).1 =
        (readUsers s.file).1 ∧
      (register now newId writeOk s name email token).2.tokenStore =
        s.tokenStore) ∧
    (∀ (now : Nat) (newId : String) (writeOk : Bool) (s : ServerState)
        (name email token : Option String),
      emailsUniqueCI (readUsers s.file).1 →
      emailsUniqueCI
        (readUsers (register now newId writeOk s name email token).2.file).1) := by
  constructor
  · intro now newId writeOk s name email token mapping hn he ht hm hme hdup
    refine ⟨?_, ?_, ?_⟩ <;>
      simp [register, hn, he, ht, hm, hme, hdup, readUsers_idem]
  · intro now newId writeOk s name email token hinv
    by_cases hf : (falsy name || falsy email || falsy token) = true
    · simpa [register, hf] using hinv
    · have hf' : (falsy name || falsy email || falsy token) = false := by
        simpa using hf
      simp only [Bool.or_eq_false_iff] at hf'
      obtain ⟨⟨hn, he⟩, ht⟩ := hf'
      rcases hmg : mapGet s.tokenStore (token.getD "") with _ | mapping
      · simpa [register, hn, he, ht, hmg] using hinv
      · by_cases hme : mapping.email = email.getD ""
        · by_cases hdup : ((readUsers s.file).1.any
              (fun u => toLowerStr u.email == toLowerStr (email.getD ""))) = true
          · simpa [register, hn, he, ht, hmg, hme, hdup, readUsers_idem] using hinv
          · rw [Bool.not_eq_true] at hdup
            cases writeOk with
            | false =>
                simpa [register, hn, he, ht, hmg, hme, hdup, writeUsers,
                  readUsers_idem] using hinv
            | true =>
                have hreg : (register now newId true s name email token).2.file =
                    .content ((readUsers s.file).1 ++
                      [⟨newId, name.getD "", email.getD "", now⟩]) := by
                  simp [register, hn, he, ht, hmg, hme, hdup, writeUsers]
                rw [hreg]
                have hall : ∀ u ∈ (readUsers s.file).1,
                    toLowerStr u.email ≠ toLowerStr (email.getD "") := by
                  intro u hu hEq
                  rw [← Bool.not_eq_true, List.any_eq_true] at hdup
                  exact hdup ⟨u, hu, by rw [beq_iff_eq]; exact hEq⟩
                show emailsUniqueCI ((readUsers s.file).1 ++
                  [⟨newId, name.getD "", email.getD "", now⟩])
                unfold emailsUniqueCI at hinv ⊢
                rw [List.pairwise_append]
                refine ⟨hinv, List.pairwise_singleton _ _, ?_⟩
                intro u hu v hv
                simp only [List.mem_singleton] at hv
                subst hv
                exact hall u hu
        · simpa [register, hn, he, ht, hmg, hme] using hinv

/-- Concrete run of `C7_duplicate_rejected`: registering `a@x.com` with a
valid fresh token while `A@X.COM` is already stored is rejected and changes
nothing. -/
theorem C7_witness :
    (register 10 "id" true
        (⟨[], [("t", ⟨"a@x.com", 999999⟩)],
          .content [⟨"i0", "Al", "A@X.COM", 5⟩]⟩ : ServerState)
        (some "Bob") (some "a@x.com") (some "t")).1 =
      { status := 400, ok := false, error := some "User already exists" } ∧
    (readUsers (register 10 "id" true
        (⟨[], [("t", ⟨"a@x.com", 999999⟩)],
          .content [⟨"i0", "Al", "A@X.COM", 5⟩]⟩ : ServerState)
        (some "Bob") (some "a@x.com") (some "t")).2.file).1 =
      (readUsers (⟨[], [("t", ⟨"a@x.com", 999999⟩)],
          .content [⟨"i0", "Al", "A@X.COM", 5⟩]⟩ : ServerState).file).1 ∧
    (register 10 "id" true
        (⟨[], [("t", ⟨"a@x.com", 999999⟩)],
          .content [⟨"i0", "Al", "A@X.COM", 5⟩]⟩ : ServerState)
        (some "Bob") (some "a@x.com") (some "t")).2.tokenStore =
      (⟨[], [("t", ⟨"a@x.com", 999999⟩)],
        .content [⟨"i0", "Al", "A@X.COM", 5⟩]⟩ : ServerState).tokenStore :=
  C7_duplicate_rejected.1 10 "id" true _ (some "Bob") (some "a@x.com") (some "t")
    ⟨"a@x.com", 999999⟩ rfl rfl rfl (by decide) (by decide) (by decide)

/-- C8: persistence failure in `/register`.  With a valid matching token and
no duplicate user, a failing `writeUsers` produces 500 "Failed to save
user", leaves the stored user list as it was and keeps the token in the
store for a retry; a successful persist is the only path that deletes the
token. -/
theorem C8_persist_failure (now : Nat) (newId : String) (s : ServerState)
    (name email token : Option String) (mapping : TokenData)
    (hn : falsy name = false) (he : falsy email = false) (ht : falsy token = false)
    (hm : mapGet s.tokenStore (token.getD "") = some mapping)
    (hme : mapping.email = email.getD "")
    (hdup : ((readUsers s.file).1.any
      (fun u => toLowerStr u.email == toLowerStr (email.getD ""))) = false) :
    (register now newId false s name email token).1 =
      { status := 500, ok := false, error := some "Failed to save user" } ∧
    (readUsers (register now newId false s name email token).2.file).1 =
      (readUsers s.file).1 ∧
    mapGet (register now newId false s name email token).2.tokenStore
      (token.getD "") = some mapping ∧
    mapGet (register now newId true s name email token).2.tokenStore
      (token.getD "") = none := by
  refine ⟨?_, ?_, ?_, ?_⟩
  · simp [register, hn, he, ht, hm, hme, hdup, writeUsers]
  · simp [register, hn, he, ht, hm, hme, hdup, writeUsers, readUsers_idem]
  · simp [register, hn, he, ht, hm, hme, hdup, writeUsers, hm]
  · simp [register, hn, he, ht, hm, hme, hdup, writeUsers, mapGet_del_self]

/-- Concrete run of `C8_persist_failure`: when the write fails the call
answers 500 and the token survives; the successful variant deletes it. -/
theorem C8_witness :
    (register 7 "id1" false
        (⟨[], [("t", ⟨"a@x.com", 999999⟩)], .content []⟩ : ServerState)
        (some "Alice") (some "a@x.com") (some "t")).1 =
      { status := 500, ok := false, error := some "Failed to save user" } ∧
    (readUsers (register 7 "id1" false
        (⟨[], [("t", ⟨"a@x.com", 999999⟩)], .content []⟩ : ServerState)
        (some "Alice") (some "a@x.com") (some "t")).2.file).1 =
      (readUsers (⟨[], [("t", ⟨"a@x.com", 999999⟩)],
        .content []⟩ : ServerState).file).1 ∧
    mapGet (register 7 "id1" false
        (⟨[], [("t", ⟨"a@x.com", 999999⟩)], .content []⟩ : ServerState)
        (some "Alice") (some "a@x.com") (some "t")).2.tokenStore "t" =
      some ⟨"a@x.com", 999999⟩ ∧
    mapGet (register 7 "id1" true
        (⟨[], [("t", ⟨"a@x.com", 999999⟩)], .content []⟩ : ServerState)
        (some "Alice") (some "a@x.com") (some "t")).2.tokenStore "t" = none :=
  C8_persist_failure 7 "id1" ⟨[], [("t", ⟨"a@x.com", 999999⟩)], .content []⟩
    (some "Alice") (some "a@x.com") (some "t") ⟨"a@x.com", 999999⟩
    rfl rfl rfl (by decide) (by decide) (by decide)

/-- Token store and directory of the C9 counterexample: the token expired
long ago but the matching user exists. -/
def c9State : ServerState :=
  ⟨[], [("t", ⟨"a@x.com", 0⟩)], .content [⟨"i0", "Alice", "a@x.com", 5⟩]⟩

/-- C9 counterexample: a `GET /me` presenting a token whose stored expiry
`0` has long passed (the conceptual call time being any `now > 0`) is NOT
rejected with 401 — the user is returned, because the handler never
compares the token expiry to the clock. -/
theorem C9_counterexample :
    mapGet c9State.tokenStore "t" = some ⟨"a@x.com", 0⟩ ∧
    (0 : Nat) < 1000000 ∧
    (me c9State (some "t") none).1.status = 200 ∧
    (me c9State (some "t") none).1.user = some ⟨"i0", "Alice", "a@x.com", 5⟩ := by
  decide

/-- C9 (amended): `GET /me` with a missing (falsy) token answers 401 "Token
required"; with a token absent from the token store it answers 401 "Invalid
or expired token"; with a present token — regardless of its stored expiry,
which the handler never checks — it answers 404 "User not found" when no
stored user matches the token email case-insensitively, and otherwise
returns the first matching user with 200. -/
theorem C9_me_cases (s : ServerState) (header query tok : Option String)
    (htok : tok = if falsy header then query else header) :
    (falsy tok = true →
      me s header query =
        ({ status := 401, ok := false, error := some "Token required" }, s)) ∧
    (falsy tok = false →
      mapGet s.tokenStore (tok.getD "") = none →
      me s header query =
        ({ status := 401, ok := false, error := some "Invalid or expired token" }, s)) ∧
    (∀ mapping : TokenData, falsy tok = false →
      mapGet s.tokenStore (tok.getD "") = some mapping →
      ((readUsers s.file).1.find?
          (fun u => toLowerStr u.email == toLowerStr mapping.email) = none →
        (me s header query).1 =
          { status := 404, ok := false, error := some "User not found" }) ∧
      (∀ u : User, (readUsers s.file).1.find?
          (fun u => toLowerStr u.email == toLowerStr mapping.email) = some u →
        (me s header query).1 = { status := 200, ok := true, user := some u })) := by
  subst htok
  refine ⟨?_, ?_, ?_⟩
  · intro hfalsy
    simp [me, hfalsy]
  · intro hfalsy hnone
    simp [me, hfalsy, hnone]
  · intro mapping hfalsy hsome
    constructor
    · intro hfind
      simp [me, hfalsy, hsome, hfind]
    · intro u hfind
      simp [me, hfalsy, hsome, hfind]

/-- Concrete run of `C9_me_cases`: a valid token whose user is not in the
directory yields 404. -/
theorem C9_witness :
    (me (⟨[], [("t", ⟨"a@x.com", 999⟩)], .content []⟩ : ServerState)
        (some "t") none).1 =
      { status := 404, ok := false, error := some "User not found" } :=
  ((C9_me_cases ⟨[], [("t", ⟨"a@x.com", 999⟩)], .content []⟩ (some "t") none
      (some "t") (by decide)).2.2 ⟨"a@x.com", 999⟩ rfl (by decide)).1 (by decide)

/-- C10: `readUsers` swallows read failures, returning the empty list, so
while the file is unreadable `/exists` reports `exists = false` for every
email, and a `/register` with a valid matching token proceeds as if the
directory were empty: a successful write replaces the stored file with just
the one new user. -/
theorem C10_read_failure_resilience :
    readUsers .unreadable = ([], .unreadable) ∧
    (∀ (s : ServerState) (email : Option String),
      falsy email = false →
      s.file = .unreadable →
      existsHandler s email =
        ({ status := 200, ok := true, userExists := some false },
         { s with file := .unreadable })) ∧
    (∀ (now : Nat) (newId : String) (s : ServerState)
        (name email token : Option String) (mapping : TokenData),
      s.file = .unreadable →
      falsy name = false → falsy email = false → falsy token = false →
      mapGet s.tokenStore (token.getD "") = some mapping →
      mapping.email = email.getD "" →
      (register now newId true s name email token).1.status = 200 ∧
      (register now newId true s name email token).2.file =
        .content [⟨newId, name.getD "", email.getD "", now⟩]) := by
  refine ⟨rfl, ?_, ?_⟩
  · intro s email he hfile
    simp [existsHandler, he, hfile, readUsers]
  · intro now newId s name email token mapping hfile hn he ht hm hme
    constructor
    · simp [register, hn, he, ht, hm, hme, hfile, readUsers, writeUsers]
    · simp [register, hn, he, ht, hm, hme, hfile, readUsers, writeUsers]

/-- Concrete run of `C10_read_failure_resilience`: with an unreadable file,
a valid registration succeeds and the persisted directory holds only the
new user. -/
theorem C10_witness :
    (register 7 "id1" true
        (⟨[], [("t", ⟨"a@x.com", 999999⟩)], .unreadable⟩ : ServerState)
        (some "Alice") (some "a@x.com") (some "t")).1.status = 200 ∧
    (register 7 "id1" true
        (⟨[], [("t", ⟨"a@x.com", 999999⟩)], .unreadable⟩ : ServerState)
        (some "Alice") (some "a@x.com") (some "t")).2.file =
      .content [⟨"id1", "Alice", "a@x.com", 7⟩] :=
  C10_read_failure_resilience.2.2 7 "id1"
    ⟨[], [("t", ⟨"a@x.com", 999999⟩)], .unreadable⟩
    (some "Alice") (some "a@x.com") (some "t") ⟨"a@x.com", 999999⟩
    rfl rfl rfl rfl (by decide) (by decide)

end EmailOtp
